import Mathlib

/-!
Shallow embedding of Project Wonderland. The primary draft is
src/wonderland.py; src/main.py is an earlier near-duplicate of the same
design with an identical request translator. The embedding covers the
provider table, the credential sync into the process environment, the
request translator and the completion endpoint, each definition traced
from the corresponding Python function.
-/

namespace Wonderland

/-- Message, the role/content pair of a completion request
(class Message in src/wonderland.py). -/
structure Message where
  content : String
  role : String
deriving DecidableEq, Repr

/-- Provider row of the table (class Provider in src/wonderland.py).
The optional string columns default as in the SQLModel declaration. -/
structure Provider where
  id : Option Nat := none
  provider_name : String
  provider_syntax : Option String := some "openai"
  endpoint : Option String := none
  api_key : String
  api_base : Option String := none
deriving DecidableEq, Repr

/-- The provider table, rows in insertion order. -/
abbrev Store := List Provider

/-- session.get(Provider, provider_id): the row whose primary key matches. -/
def Store.get : Store → Nat → Option Provider
  | [], _ => none
  | p :: ps, pid => if p.id = some pid then some p else Store.get ps pid

/-- session.delete followed by commit on the row with the given primary key. -/
def Store.eraseId : Store → Nat → Store
  | [], _ => []
  | p :: ps, pid =>
      if p.id = some pid then Store.eraseId ps pid else p :: Store.eraseId ps pid

/-- The process environment os.environ: a mapping from variable name to value. -/
abbrev Env := List (String × String)

/-- Read a variable from the environment. -/
def envLookup : Env → String → Option String
  | [], _ => none
  | (k, v) :: rest, key => if k = key then some v else envLookup rest key

/-- os.environ assignment: overwrite the binding when the variable exists,
otherwise add it. -/
def envSet : Env → String → String → Env
  | [], key, val => [(key, val)]
  | (k, v) :: rest, key, val =>
      if k = key then (k, val) :: rest else (k, v) :: envSet rest key val

/-- Python str.upper on the character sequence of a string (the names used
here are ASCII, where this is uppercasing character by character). -/
def pyUpper (s : String) : String :=
  String.mk (List.map Char.toUpper s.data)

/-- Derived environment key for a provider credential:
upper(provider_name) + "_API_KEY" (set_provider_keys in src/wonderland.py). -/
def derivedKey (p : Provider) : String :=
  pyUpper p.provider_name ++ "_API_KEY"

/-- set_provider_keys from src/wonderland.py lines 210-216: iterate over all
stored providers and write each credential into the process environment under
its derived key. It reads the committed table and mutates only the
environment. -/
def set_provider_keys : Store → Env → Env
  | [], env => env
  | p :: ps, env => set_provider_keys ps (envSet env (derivedKey p) p.api_key)

/-- Python truthiness of an optional string: None and the empty string are
falsy, every other string is truthy. -/
def truthy : Option String → Bool
  | none => false
  | some s => s != ""

/-- Python exceptions that the endpoints can raise. -/
inductive PyError where
  | attributeError (attr : String)
  | typeError (msg : String)
  | valueError (msg : String)
deriving DecidableEq, Repr

/-- CompletionReq (class CompletionReq in src/wonderland.py): the validated
request body. max_tokens_set records whether the caller supplied max_tokens,
i.e. whether the field is in the pydantic fields-set consulted by
model_dump with exclude_unset. -/
structure CompletionReq where
  model : String
  messages : List Message
  max_tokens : Option Int
  max_tokens_set : Bool
  provider_id : Nat
deriving DecidableEq, Repr

/-- Validation of a completion request body into a CompletionReq: an omitted
max_tokens (outer none) takes the declared default 256 and stays out of the
fields-set; a supplied value (possibly null, the inner Option) is recorded as
set. -/
def mkCompletionReq (model : String) (messages : List Message)
    (max_tokens : Option (Option Int)) (provider_id : Nat) : CompletionReq :=
  { model := model, messages := messages,
    max_tokens := Option.getD max_tokens (some 256),
    max_tokens_set := Option.isSome max_tokens,
    provider_id := provider_id }

/-- CompletionReqBase (class CompletionReqBase in src/wonderland.py lines
49-52): exactly the fields the Python class declares, namely model, messages
and max_tokens; no api_base field exists on this model, so a pydantic
attribute assignment to api_base raises ValueError. -/
structure CompletionReqBase where
  model : String
  messages : List Message
  max_tokens : Option Int
  max_tokens_set : Bool
deriving DecidableEq, Repr

/-- parse_request from src/wonderland.py lines 201-208 (textually identical in
src/main.py lines 162-169). It re-validates the explicitly set fields of the
raw request (provider_id is dropped; an unset max_tokens is re-defaulted and
stays unset), prefixes the model with the provider dialect and a literal "/",
and appends a truthy endpoint with no separator. A provider_syntax of None
makes the string concatenation raise TypeError. When provider.api_base is
truthy the source then executes the assignment response.api_base =
provider.api_base; CompletionReqBase declares no api_base field and no
model_config, so pydantic raises ValueError there and the translation ends
in that exception instead of a request. -/
def parse_request (request : CompletionReq) (provider : Provider) :
    Except PyError CompletionReqBase :=
  match Provider.provider_syntax provider with
  | none => Except.error (PyError.typeError "unsupported operand")
  | some s =>
      let response : CompletionReqBase :=
        { model := request.model, messages := request.messages,
          max_tokens := if request.max_tokens_set then request.max_tokens else some 256,
          max_tokens_set := request.max_tokens_set }
      let response := { response with model := s ++ "/" ++ response.model }
      let response :=
        if truthy provider.endpoint then
          { response with model := response.model ++ Option.getD provider.endpoint "" }
        else response
      if truthy provider.api_base then
        Except.error (PyError.valueError "object has no field api_base")
      else Except.ok response

/-- The keyword set passed to the backend, i.e. the result of
request.model_dump(exclude_unset=True) at the acompletion call site. model
and messages are always in the fields-set; max_tokens appears only when set;
CompletionReqBase has no other field that could be dumped. -/
structure DispatchFields where
  model : String
  messages : List Message
  max_tokens : Option (Option Int)
deriving DecidableEq, Repr

/-- Serialization of the translated request into the dispatched field-set. -/
def dispatchFields (r : CompletionReqBase) : DispatchFields :=
  { model := r.model, messages := r.messages,
    max_tokens := if r.max_tokens_set then some r.max_tokens else none }

/-- get_provider from src/wonderland.py lines 101-107: the row, or a 404 with
the offending id when the row is absent. -/
def get_provider (store : Store) (provider_id : Nat) : Except (Nat × String) Provider :=
  match Store.get store provider_id with
  | none =>
      Except.error (404, "Provider with id: " ++ toString provider_id ++ " not found.")
  | some p => Except.ok p

/-- Outcome of the completion endpoint as seen by the caller. -/
inductive ApiResult where
  | completion (payload : String)
  | envLeak (env : Env)
  | httpError (status : Nat) (detail : String)
  | pyError (e : PyError)
deriving DecidableEq, Repr

/-- api_completion from src/wonderland.py lines 179-187: resolve the provider
(a 404 propagates), translate with parse_request, dispatch the exclude_unset
field-set to the external litellm.acompletion capability (the backend
parameter); on any dispatch exception the response assigned to the caller is
os.environ itself. The handler performs no store mutation and no credential
resync. -/
def api_completion (store : Store) (env : Env)
    (backend : DispatchFields → Except String String)
    (rawrequest : CompletionReq) : Store × ApiResult :=
  match get_provider store rawrequest.provider_id with
  | Except.error e => (store, ApiResult.httpError e.1 e.2)
  | Except.ok provider =>
      match parse_request rawrequest provider with
      | Except.error e => (store, ApiResult.pyError e)
      | Except.ok request =>
          match backend (dispatchFields request) with
          | Except.ok resp => (store, ApiResult.completion resp)
          | Except.error _ => (store, ApiResult.envLeak env)

/-- ProviderUpdate (class ProviderUpdate in src/wonderland.py). The outer
Option marks whether the field appears in the exclude_unset dump of the
patch; the claims only exercise patches that supply plain values, so fields
whose column is non-nullable carry a plain value when set. -/
structure ProviderUpdate where
  provider_name : Option String := none
  provider_syntax : Option (Option String) := none
  endpoint : Option (Option String) := none
  api_key : Option String := none
  api_base : Option (Option String) := none
deriving DecidableEq, Repr

/-- provider_db.sqlmodel_update(provider_data): overwrite exactly the fields
present in the patch dump, leave the rest untouched. -/
def sqlmodel_update (p : Provider) (u : ProviderUpdate) : Provider :=
  { id := p.id,
    provider_name := Option.getD u.provider_name p.provider_name,
    provider_syntax := Option.getD ( ProviderUpdate.provider_syntax u) ( Provider.provider_syntax p),
    endpoint := Option.getD u.endpoint p.endpoint,
    api_key := Option.getD u.api_key p.api_key,
    api_base := Option.getD u.api_base p.api_base }

/-- update_provider from src/wonderland.py lines 123-133: 404 when the id is
unknown, otherwise merge-patch the row in place, commit, and return the
updated row. -/
def update_provider (store : Store) (provider_id : Nat) (u : ProviderUpdate) :
    Store × Except (Nat × String) Provider :=
  match Store.get store provider_id with
  | none =>
      (store,
       Except.error (404, "Provider with id: " ++ toString provider_id ++ " not found."))
  | some p =>
      let p2 := sqlmodel_update p u
      (store.map (fun q => if q.id = some provider_id then p2 else q), Except.ok p2)

/-- delete_provider from src/wonderland.py lines 135-143. When the id is
unknown the HTTPException is constructed with the misspelled keyword
details, so a TypeError is raised instead of the 404. When the row exists it
is deleted and committed; the response f-string then reads
provider.provider_id, an attribute the Provider model does not define (its
key column is id), so the request errors with AttributeError after the
deletion has already been committed. -/
def delete_provider (store : Store) (provider_id : Nat) :
    Store × Except PyError (List (String × String)) :=
  match Store.get store provider_id with
  | none => (store, Except.error (PyError.typeError "details"))
  | some _ =>
      (Store.eraseId store provider_id, Except.error (PyError.attributeError "provider_id"))

/-- is_provider_listed from src/wonderland.py lines 109-113: look the provider
up by id and test its stored name against the external litellm catalog; an
unknown id leaves provider as None and the name access raises
AttributeError. -/
def is_provider_listed (store : Store) (provider_id : Nat) (listed : List String) :
    Except PyError Bool :=
  match Store.get store provider_id with
  | none => Except.error (PyError.attributeError "provider_name")
  | some p => Except.ok (listed.contains p.provider_name)

/-- add_provider from src/wonderland.py lines 92-99 (same slip in src/main.py
lines 81-88). Its first statement evaluates provider.provider_id in order to
call is_provider_listed; the Provider model defines id, not provider_id, so
every create raises AttributeError before session.add runs: nothing is
stored and no confirmation is returned. -/
def add_provider (store : Store) (provider : Provider) : Store × Except PyError String :=
  (store, Except.error (PyError.attributeError "provider_id"))

/-! Helper lemmas about the store and the environment. -/

theorem Store.get_eraseId (store : Store) (pid : Nat) :
    Store.get (Store.eraseId store pid) pid = none := by
  induction store with
  | nil => rfl
  | cons p ps ih =>
      by_cases h : p.id = some pid <;> simp [Store.eraseId, Store.get, h, ih]

theorem Store.id_of_get (store : Store) (pid : Nat) (p : Provider)
    (h : Store.get store pid = some p) : p.id = some pid := by
  induction store with
  | nil => simp [Store.get] at h
  | cons q qs ih =>
      by_cases hq : q.id = some pid
      · simp [Store.get, hq] at h
        exact h ▸ hq
      · simp [Store.get, hq] at h
        exact ih h

theorem Store.get_map_replace (store : Store) (pid : Nat) (p p2 : Provider)
    (hp : Store.get store pid = some p) (hid : p2.id = some pid) :
    Store.get (store.map (fun q => if q.id = some pid then p2 else q)) pid = some p2 := by
  induction store with
  | nil => simp [Store.get] at hp
  | cons q qs ih =>
      by_cases hq : q.id = some pid
      · simp [Store.get, List.map, hq, hid]
      · simp [Store.get, hq] at hp
        simp [Store.get, List.map, hq, ih hp]

theorem envLookup_envSet (env : Env) (k v key : String) :
    envLookup (envSet env k v) key = if k = key then some v else envLookup env key := by
  induction env with
  | nil => simp [envSet, envLookup]
  | cons kv rest ih =>
      obtain ⟨k1, v1⟩ := kv
      by_cases h1 : k1 = k
      · subst h1
        by_cases h2 : k1 = key <;> simp [envSet, envLookup, h2]
      · by_cases h2 : k1 = key
        · subst h2
          have hk : ¬k = k1 := fun hc => h1 hc.symm
          simp [envSet, envLookup, h1, hk]
        · simp [envSet, envLookup, h1, h2, ih]

/-- Value written for a key by one full pass of set_provider_keys: the
credential of the last stored provider whose derived key matches, if any. -/
def writeVal : Store → String → Option String
  | [], _ => none
  | p :: ps, key =>
      match writeVal ps key with
      | some v => some v
      | none => if derivedKey p = key then some p.api_key else none

theorem envLookup_set_provider_keys (store : Store) (env : Env) (key : String) :
    envLookup (set_provider_keys store env) key
      = match writeVal store key with
        | some v => some v
        | none => envLookup env key := by
  induction store generalizing env with
  | nil => rfl
  | cons p ps ih =>
      show envLookup (set_provider_keys ps (envSet env (derivedKey p) p.api_key)) key = _
      rw [ih]
      cases hw : writeVal ps key with
      | some v => simp [writeVal, hw]
      | none =>
          rw [envLookup_envSet]
          by_cases hk : derivedKey p = key <;> simp [writeVal, hw, hk]

theorem writeVal_of_not_mem (store : Store) (key : String)
    (h : key ∉ List.map derivedKey store) : writeVal store key = none := by
  induction store with
  | nil => rfl
  | cons p ps ih =>
      simp only [List.map, List.mem_cons] at h
      push_neg at h
      rw [writeVal, ih h.2]
      simp [Ne.symm h.1]

theorem writeVal_of_nodup (store : Store)
    (hk : (List.map derivedKey store).Nodup) (p : Provider) (hp : p ∈ store) :
    writeVal store (derivedKey p) = some p.api_key := by
  induction store with
  | nil => simp at hp
  | cons q qs ih =>
      rw [List.map, List.nodup_cons] at hk
      rcases List.mem_cons.mp hp with hpq | hpt
      · subst hpq
        rw [writeVal, writeVal_of_not_mem qs (derivedKey p) hk.1]
        simp
      · rw [writeVal, ih hk.2 hpt]

/-! Concrete records used by witnesses and counterexamples. They follow the
scenarios of the specification. -/

/-- A single user message. -/
def sampleMessages : List Message := [{ content := "hi", role := "user" }]

/-- Provider of the first specification scenario. -/
def openaiProvider : Provider :=
  { id := some 1, provider_name := "openai", provider_syntax := some "openai",
    endpoint := none, api_key := "k1", api_base := none }

/-- Provider of the second specification scenario, with endpoint and base URL. -/
def customProvider : Provider :=
  { id := some 2, provider_name := "custom", provider_syntax := some "openai",
    endpoint := some "/v2", api_key := "k2", api_base := some "https://x.example" }

/-- Provider with an endpoint suffix and no base URL override. -/
def v2Provider : Provider :=
  { id := some 4, provider_name := "vee", provider_syntax := some "openai",
    endpoint := some "/v2", api_key := "k4", api_base := none }

/-- A provider whose credential gets rotated after process start. -/
def fooProvider : Provider :=
  { id := some 3, provider_name := "foo", provider_syntax := some "openai",
    endpoint := none, api_key := "k1", api_base := none }

/-- Partial patch rotating only the credential. -/
def keyPatch : ProviderUpdate := { api_key := some "k2" }

/-- An environment holding unrelated process state. -/
def secretEnv : Env := [("PATH", "/usr/bin"), ("AWS_SECRET_ACCESS_KEY", "xyz")]

/-! Claim theorems. -/

/-- C1 counterexample: at the second specification scenario provider, whose
api_base is non-empty, the translator raises the pydantic ValueError for the
undeclared api_base field instead of producing a concrete request, so no
model field equal to s ++ "/" ++ m ++ e is produced for it. -/
theorem claim1_counterexample :
    Except.map CompletionReqBase.model
        (parse_request (mkCompletionReq "m" sampleMessages none 2) customProvider)
      = Except.error (PyError.valueError "object has no field api_base") ∧
    Except.map CompletionReqBase.model
        (parse_request (mkCompletionReq "m" sampleMessages none 2) customProvider)
      ≠ Except.ok ("openai" ++ "/" ++ "m" ++ Option.getD (Provider.endpoint customProvider) "") := by
  have h0 : Except.map CompletionReqBase.model
      (parse_request (mkCompletionReq "m" sampleMessages none 2) customProvider)
      = Except.error (PyError.valueError "object has no field api_base") := rfl
  refine ⟨h0, ?_⟩
  rw [h0]
  simp

/-- C1 amended: for a provider whose dialect is the string s and whose
api_base is empty or absent, the translator yields a concrete request whose
model field is s ++ "/" ++ m ++ e, where e is the endpoint text and empty
when the endpoint is empty or absent, with no separator before e; for a
provider with a non-empty api_base the translator instead raises the
ValueError for the undeclared api_base field and produces no request. -/
theorem claim1_model_rewrite (request : CompletionReq) (provider : Provider) (s : String)
    (hs : Provider.provider_syntax provider = some s) :
    (truthy provider.api_base = false →
        Except.map CompletionReqBase.model (parse_request request provider)
          = Except.ok (s ++ "/" ++ request.model ++ Option.getD provider.endpoint "")) ∧
    (truthy provider.api_base = true →
        parse_request request provider
          = Except.error (PyError.valueError "object has no field api_base")) := by
  unfold parse_request
  rw [hs]
  constructor <;> intro hb
  · simp only [hb]
    cases he : provider.endpoint with
    | none => simp [truthy, Except.map, String.append_empty]
    | some e =>
        by_cases h0 : e = ""
        · subst h0
          simp [truthy, Except.map, String.append_empty]
        · simp [truthy, h0, Except.map]
  · simp [hb]

/-- Witness for the amended C1: dialect "openai", model "m", endpoint "/v2"
and no base URL give concrete model "openai/m/v2". -/
theorem claim1_model_rewrite_witness :
    Provider.provider_syntax v2Provider = some "openai" ∧
    truthy (Provider.api_base v2Provider) = false ∧
    Except.map CompletionReqBase.model
        (parse_request (mkCompletionReq "m" sampleMessages none 4) v2Provider)
      = Except.ok ("openai" ++ "/" ++ "m" ++ Option.getD (Provider.endpoint v2Provider) "") :=
  ⟨rfl, rfl,
   (claim1_model_rewrite (mkCompletionReq "m" sampleMessages none 4) v2Provider
      "openai" rfl).1 rfl⟩

/-- C2 (code bug, evaluated): a completion whose backend dispatch raises is
answered with the whole process environment, not with a structured error. -/
theorem claim2_env_leak_on_dispatch_failure :
    api_completion [openaiProvider] secretEnv (fun _ => Except.error "connection error")
        (mkCompletionReq "gpt-4" sampleMessages none 1)
      = ([openaiProvider], ApiResult.envLeak secretEnv) := by rfl

/-- C3 (code bug, evaluated): CompletionReqBase declares no base-URL field, so
for a provider with a non-empty api_base the attribute assignment raises
ValueError and the translator never sets any base-URL value; for a provider
with an empty or absent api_base the translation completes, and its result
has no base-URL field to carry. -/
theorem claim3_api_base_attach_raises :
    parse_request (mkCompletionReq "m" sampleMessages none 2) customProvider
      = Except.error (PyError.valueError "object has no field api_base") ∧
    Except.map CompletionReqBase.model
        (parse_request (mkCompletionReq "gpt-4" sampleMessages none 1) openaiProvider)
      = Except.ok "openai/gpt-4" := by
  exact ⟨rfl, rfl⟩

/-- C4: after deleting provider P, a completion referencing the id of P is
answered with the 404 not-found error naming the id, whatever the backend
does: the provider resolution fails before any dispatch can occur. -/
theorem claim4_delete_then_completion_not_found (store : Store) (env : Env) (pid : Nat)
    (p : Provider) (hp : Store.get store pid = some p)
    (backend : DispatchFields → Except String String)
    (request : CompletionReq) (hr : request.provider_id = pid) :
    api_completion (delete_provider store pid).1 env backend request
      = ((delete_provider store pid).1,
         ApiResult.httpError 404 ("Provider with id: " ++ toString pid ++ " not found.")) := by
  have hdel : (delete_provider store pid).1 = Store.eraseId store pid := by
    unfold delete_provider
    rw [hp]
  simp only [api_completion, get_provider, hr, hdel, Store.get_eraseId]

/-- Witness for C4 at a one-row table. -/
theorem claim4_delete_then_completion_not_found_witness :
    Store.get [openaiProvider] 1 = some openaiProvider ∧
    (mkCompletionReq "gpt-4" sampleMessages none 1).provider_id = 1 ∧
    api_completion (delete_provider [openaiProvider] 1).1 secretEnv
        (fun _ => Except.ok "ok") (mkCompletionReq "gpt-4" sampleMessages none 1)
      = ((delete_provider [openaiProvider] 1).1,
         ApiResult.httpError 404 ("Provider with id: " ++ toString 1 ++ " not found.")) :=
  ⟨rfl, rfl,
   claim4_delete_then_completion_not_found [openaiProvider] secretEnv 1 openaiProvider rfl
     (fun _ => Except.ok "ok") (mkCompletionReq "gpt-4" sampleMessages none 1) rfl⟩

/-- C7 (code bug, evaluated): every provider creation raises AttributeError on
provider.provider_id before anything is stored, so no create completes and
the known-provider override is never applied. -/
theorem claim7_create_always_raises (store : Store) (provider : Provider) :
    add_provider store provider
      = (store, Except.error (PyError.attributeError "provider_id")) := rfl

/-- C10: the completion flow never creates, modifies or deletes a provider
record: whatever the backend answers, the table after the call is the table
before it. -/
theorem claim10_completion_preserves_store (store : Store) (env : Env)
    (backend : DispatchFields → Except String String) (request : CompletionReq) :
    (api_completion store env backend request).1 = store := by
  unfold api_completion
  split
  · rfl
  · split
    · rfl
    · split <;> rfl

/-- C5 counterexample: the credential sync runs only at process start (the
lifespan hook of src/wonderland.py); rotating a stored credential with
update_provider afterwards leaves the environment stale, and a later
completion dispatch still occurs. At that moment the stored provider holds
credential "k2" while its derived key still maps to "k1". -/
theorem claim5_counterexample :
    (api_completion (update_provider [fooProvider] 3 keyPatch).1
        (set_provider_keys [fooProvider] []) (fun _ => Except.ok "ok")
        (mkCompletionReq "m" sampleMessages none 3)).2 = ApiResult.completion "ok" ∧
    Store.get (update_provider [fooProvider] 3 keyPatch).1 3
      = some { fooProvider with api_key := "k2" } ∧
    envLookup (set_provider_keys [fooProvider] [])
        (derivedKey { fooProvider with api_key := "k2" }) = some "k1" ∧
    envLookup (set_provider_keys [fooProvider] [])
        (derivedKey { fooProvider with api_key := "k2" })
      ≠ some (Provider.api_key { fooProvider with api_key := "k2" }) := by
  exact ⟨rfl, rfl, by decide, by decide⟩

/-- C5 amended: after one full credential sync, every provider of the synced
table (with pairwise distinct derived keys) has its credential present in the
environment under its derived key. The completion flow never re-syncs, so at
dispatch this covers the table as the startup sync saw it, not providers
created or updated afterwards. -/
theorem claim5_startup_sync_covers_table (store : Store) (env : Env)
    (hkeys : (List.map derivedKey store).Nodup) (p : Provider) (hp : p ∈ store) :
    envLookup (set_provider_keys store env) (derivedKey p) = some p.api_key := by
  rw [envLookup_set_provider_keys, writeVal_of_nodup store hkeys p hp]

/-- Witness for the amended C5 at a two-row table. -/
theorem claim5_startup_sync_covers_table_witness :
    (List.map derivedKey [fooProvider, openaiProvider]).Nodup ∧
    fooProvider ∈ [fooProvider, openaiProvider] ∧
    envLookup (set_provider_keys [fooProvider, openaiProvider] []) (derivedKey fooProvider)
      = some (Provider.api_key fooProvider) :=
  ⟨by decide, by decide,
   claim5_startup_sync_covers_table [fooProvider, openaiProvider] [] (by decide)
     fooProvider (by decide)⟩

/-- C6: running the credential sync twice in succession over an unchanged
table yields the same lookup contents as running it once: every key reads
the same value after the second run as after the first. -/
theorem claim6_sync_idempotent (store : Store) (env : Env) (key : String) :
    envLookup (set_provider_keys store (set_provider_keys store env)) key
      = envLookup (set_provider_keys store env) key := by
  simp only [envLookup_set_provider_keys]
  cases writeVal store key <;> rfl

/-- C8: patching a stored provider with only an endpoint value changes just
the endpoint: name, dialect, base URL, credential and id keep their previous
values, both in the returned record and in the stored row. -/
theorem claim8_update_endpoint_frame (store : Store) (pid : Nat) (p : Provider)
    (hp : Store.get store pid = some p) :
    (update_provider store pid { endpoint := some (some "x") }).2
        = Except.ok { p with endpoint := some "x" } ∧
    Store.get (update_provider store pid { endpoint := some (some "x") }).1 pid
      = some { p with endpoint := some "x" } := by
  have hid : p.id = some pid := Store.id_of_get store pid p hp
  simp only [update_provider, hp]
  exact ⟨rfl, Store.get_map_replace store pid p _ hp hid⟩

/-- Witness for C8 at a one-row table. -/
theorem claim8_update_endpoint_frame_witness :
    Store.get [customProvider] 2 = some customProvider ∧
    (update_provider [customProvider] 2 { endpoint := some (some "x") }).2
        = Except.ok { customProvider with endpoint := some "x" } ∧
    Store.get (update_provider [customProvider] 2 { endpoint := some (some "x") }).1 2
      = some { customProvider with endpoint := some "x" } :=
  ⟨rfl, (claim8_update_endpoint_frame [customProvider] 2 customProvider rfl).1,
   (claim8_update_endpoint_frame [customProvider] 2 customProvider rfl).2⟩

/-- C9 counterexample: a completion request omitting max_tokens is dispatched
with a field-set that omits the max_tokens bound entirely; it does not carry
the default 256. -/
theorem claim9_counterexample :
    Except.map (fun r => DispatchFields.max_tokens (dispatchFields r))
        (parse_request (mkCompletionReq "gpt-4" sampleMessages none 1) openaiProvider)
      = Except.ok none ∧
    Except.map (fun r => DispatchFields.max_tokens (dispatchFields r))
        (parse_request (mkCompletionReq "gpt-4" sampleMessages none 1) openaiProvider)
      ≠ Except.ok (some (some 256)) := by
  have h0 : Except.map (fun r => DispatchFields.max_tokens (dispatchFields r))
      (parse_request (mkCompletionReq "gpt-4" sampleMessages none 1) openaiProvider)
      = Except.ok none := rfl
  refine ⟨h0, ?_⟩
  rw [h0]
  simp

/-- C9 amended: a request omitting max_tokens, sent to a provider for which
the translation completes (api_base empty or absent), is processed with the
field defaulted to 256 on the request object, but the dispatched
exclude_unset field-set omits the bound instead of carrying 256. -/
theorem claim9_default_not_dispatched (model : String) (messages : List Message)
    (provider_id : Nat) (provider : Provider) (s : String)
    (hs : Provider.provider_syntax provider = some s)
    (hb : truthy provider.api_base = false) :
    Except.map
        (fun r => (CompletionReqBase.max_tokens r, DispatchFields.max_tokens (dispatchFields r)))
        (parse_request (mkCompletionReq model messages none provider_id) provider)
      = Except.ok (some 256, none) := by
  unfold parse_request
  rw [hs]
  cases h1 : truthy provider.endpoint <;>
    simp [hb, mkCompletionReq, dispatchFields, Except.map]

/-- Witness for the amended C9 at the first specification scenario. -/
theorem claim9_default_not_dispatched_witness :
    Provider.provider_syntax openaiProvider = some "openai" ∧
    truthy (Provider.api_base openaiProvider) = false ∧
    Except.map
        (fun r => (CompletionReqBase.max_tokens r, DispatchFields.max_tokens (dispatchFields r)))
        (parse_request (mkCompletionReq "gpt-4" sampleMessages none 1) openaiProvider)
      = Except.ok (some 256, none) :=
  ⟨rfl, rfl,
   claim9_default_not_dispatched "gpt-4" sampleMessages 1 openaiProvider "openai" rfl rfl⟩

end Wonderland
